import Mathlib

/-
Verification of the component-composition subsystem
(evennia/contrib/base_systems/components: component.py, dbfield.py,
holder.py, listing.py).

The Python sources are shallowly embedded below.  Persistent stores
(the keyed attribute store, the tag store, the command-set registry)
are external collaborators of the subsystem; their narrow interfaces
are modelled from the spec as association lists.  Stateful handler
operations become explicit state passing over a `World` record, and
every fallible operation returns its final state together with an
optional propagating exception, mirroring how a Python raise leaves
already-performed mutations in place.
-/

set_option autoImplicit false

namespace Components

/-! ### Generic association-list dictionaries

Python dict semantics: assignment overwrites in place, lookup returns
the stored value or signals absence, `del` drops the entry. -/

def dictInsert {α β : Type} [DecidableEq α] : List (α × β) → α → β → List (α × β)
  | [], k, v => [(k, v)]
  | (k0, v0) :: rest, k, v =>
      if k0 = k then (k, v) :: rest else (k0, v0) :: dictInsert rest k v

def dictLookup {α β : Type} [DecidableEq α] : List (α × β) → α → Option β
  | [], _ => none
  | (k0, v0) :: rest, k => if k0 = k then some v0 else dictLookup rest k

def dictErase {α β : Type} [DecidableEq α] : List (α × β) → α → List (α × β)
  | [], _ => []
  | (k0, v0) :: rest, k => if k0 = k then rest else (k0, v0) :: dictErase rest k

/-- Python `list.remove(x)` deletes the first occurrence of `x`; callers
below guard the not-present case, which raises `ValueError` in Python. -/
def removeFirst {α : Type} [DecidableEq α] : List α → α → List α
  | [], _ => []
  | x :: rest, a => if x = a then rest else x :: removeFirst rest a

/-- Substring test on character lists, used to state what an error
message does and does not contain. -/
def charInfix (needle : List Char) : List Char → Bool
  | [] => needle.isEmpty
  | c :: rest => needle.isPrefixOf (c :: rest) || charInfix needle rest

/-! ### Python values

A small universe of the Python values the descriptors manipulate:
`None`, strings, integers, and objects carrying a `key` attribute
(`vobj PyVal.vnone` stands for an object whose `key` attribute is
missing or `None`, which `getattr(value, "key", None)` conflates). -/

inductive PyVal where
  | vnone : PyVal
  | vstr : String → PyVal
  | vint : Int → PyVal
  | vobj : PyVal → PyVal
  deriving DecidableEq

/-- Python truthiness for the values above. -/
def truthy : PyVal → Bool
  | .vnone => false
  | .vstr s => s ≠ ""
  | .vint n => n ≠ 0
  | .vobj _ => true

/-- Python truthiness of an optional string attribute (absent, `None`
and the empty string are all falsy). -/
def optStrTruthy : Option String → Bool
  | none => false
  | some s => s ≠ ""

/-! ### TagField (dbfield.py, class TagField)

The tag store itself is an external collaborator.
Modelled from the spec: the host tag store keeps `(key, category)`
pairs, with `add(key, category)`, `remove(key, category)` and
`clear(category)`; a tag is identified by its key and category, so
adding an existing pair changes nothing. -/

def tags_add (tgs : List (String × String)) (key category : String) :
    List (String × String) :=
  if (key, category) ∈ tgs then tgs else tgs ++ [(key, category)]

def tags_remove (tgs : List (String × String)) (key category : String) :
    List (String × String) :=
  removeFirst tgs (key, category)

def tags_clear (tgs : List (String × String)) (category : String) :
    List (String × String) :=
  tgs.filter (fun t => t.2 ≠ category)

/-- The data a `TagField` descriptor carries: `_category_key` (computed
by `__set_name__`), `_default`, `_enforce_single`. -/
structure TagFieldD where
  category_key : String
  default : Option String
  enforce_single : Bool
  deriving DecidableEq

/-- TagField.__set__: when `_enforce_single`, clear the category first,
then add the value under the category. -/
def tagfield_set (tgs : List (String × String)) (f : TagFieldD) (value : String) :
    List (String × String) :=
  let tgs := if f.enforce_single then tags_clear tgs f.category_key else tgs
  tags_add tgs value f.category_key

/-- TagField.__delete__: clear every tag of the field category. -/
def tagfield_delete (tgs : List (String × String)) (f : TagFieldD) :
    List (String × String) :=
  tags_clear tgs f.category_key

/-- TagField.__get__: look the tag value up by category, falling back to
`_default`; the spec treats the category as a per-field namespace. -/
def tagfield_get (tgs : List (String × String)) (f : TagFieldD) : Option String :=
  match tgs.find? (fun t => t.2 = f.category_key) with
  | some t => some t.1
  | none => f.default

/-! ### Component classes (component.py)

A component class is characterised by the attributes the sources read
from it: `component_key`, `component_slot` (both default to the empty
string on the base class), the legacy `name` attribute, the legacy
`slot` attribute consulted by HostField/KeyField `__set_name__`
(`Option` models attribute presence: `none` means `getattr` raises),
the `cmd_set` class attribute, and the class `_tag_fields` table. -/

structure ComponentClass where
  component_key : String
  component_slot : String
  name : Option String
  slot : Option String
  cmd_set : Option String := none
  tag_fields : List (String × TagFieldD) := []
  deriving DecidableEq

/-- Component.get_component_key: `key if key else getattr(cls, "name", "")`. -/
def ComponentClass.get_component_key (c : ComponentClass) : String :=
  if c.component_key ≠ "" then c.component_key else c.name.getD ""

/-- Component.get_component_slot: `slot_key if slot_key else getattr(cls, "name", "")`. -/
def ComponentClass.get_component_slot (c : ComponentClass) : String :=
  if c.component_slot ≠ "" then c.component_slot else c.name.getD ""

/-! ### Registration (component.py, BaseComponent.__new__)

The metaclass body, as a function from the current `COMPONENT_LISTING`
and the freshly created class to the updated listing or the raised
`ValueError`.  The listing key is `Option String` because the legacy
fallback assigns `component_key = getattr(new_type, "name", None)`
without any truthiness check, so `None` itself can become the key.
The source formats the offending class into the error messages; the
class repr is elided here. -/

def register_component (listing : List (Option String × ComponentClass))
    (c : ComponentClass) :
    Except String (List (Option String × ComponentClass)) :=
  if c.component_key = "" ∧ c.component_slot = "" then
    .ok (dictInsert listing c.name c)
  else if c.component_key = "" then
    .error "A component_key is required"
  else if c.component_slot = "" then
    .error "A component_slot is required"
  else
    .ok (dictInsert listing (some c.component_key) c)

/-! ### Exceptions (exceptions.py names, plus the built-in ones) -/

inductive PyErr where
  | componentDoesNotExist : String → PyErr
  | componentIsNotRegistered : String → PyErr
  | componentRegisterError : String → PyErr
  | valueError : String → PyErr
  | attributeError : String → PyErr
  | assertionError : String → PyErr
  deriving DecidableEq

/-! ### listing.py -/

/-- listing.get_component_class: dictionary lookup on `COMPONENT_LISTING`,
raising `ComponentDoesNotExist` when the key is unknown. -/
def get_component_class (listing : List (Option String × ComponentClass))
    (component_key : String) : Except PyErr ComponentClass :=
  match dictLookup listing (some component_key) with
  | some c => .ok c
  | none =>
      .error (.componentDoesNotExist
        ("Component with key " ++ component_key ++
          " has not been found. Make sure it has been imported before being used."))

/-- Python classes are always truthy; this mirrors the `if component:`
test in ComponentHandler.initialize. -/
def class_truthy (_c : ComponentClass) : Bool := true

/-! ### Field key computation (dbfield.py, the `__set_name__` methods)

Modelled from the spec: `Component.add_field` is called by every
descriptor `__set_name__` but is absent from the provided sources; per
the spec it registers the descriptor into the owning class field table
(`_db_fields` / `_ndb_fields` / `_tag_fields`) under the field name.
The table is modelled as field name to computed storage key. -/

def add_field (table : List (String × String)) (name key : String) :
    List (String × String) :=
  dictInsert table name key

/-- DBField.__set_name__ (and, identically, NDBField.__set_name__):
computes `"<slot>::<name>"` from `owner.get_component_slot()` and
registers the field. -/
def dbfield_set_name (c : ComponentClass) (table : List (String × String))
    (fname : String) : String × List (String × String) :=
  let key := c.get_component_slot ++ "::" ++ fname
  (key, add_field table fname key)

/-- TagField.__set_name__: computes the category key `"<slot>::<name>"`
from `owner.get_component_slot()` and registers the field. -/
def tagfield_set_name (c : ComponentClass) (table : List (String × String))
    (fname : String) : String × List (String × String) :=
  let category_key := c.get_component_slot ++ "::" ++ fname
  (category_key, add_field table fname category_key)

/-- The expression `owner.slot or owner.name` evaluated with Python
attribute semantics: a missing attribute raises `AttributeError`, a
falsy `slot` falls through to `name`. -/
def legacy_slot_name (c : ComponentClass) : Except PyErr String :=
  match c.slot with
  | none => .error (.attributeError "type object has no attribute slot")
  | some s =>
      if s ≠ "" then .ok s
      else
        match c.name with
        | none => .error (.attributeError "type object has no attribute name")
        | some n => .ok n

/-- HostField.__set_name__: reads `owner.slot or owner.name` (not
`get_component_slot`), computes `"<slot_name>::<name>"`, registers the
field and derives `host_attribute` when it was not supplied. -/
def hostfield_set_name (c : ComponentClass) (table : List (String × String))
    (fname : String) (host_attribute : Option String) :
    Except PyErr (String × String × List (String × String)) :=
  match legacy_slot_name c with
  | .error e => .error e
  | .ok slot_name =>
      let key := slot_name ++ "::" ++ fname
      let table := add_field table fname key
      let ha := host_attribute.getD (slot_name ++ "_" ++ fname)
      .ok (key, ha, table)

/-- KeyField.__set_name__: also reads `owner.slot or owner.name` and
computes `"<slot_name>::<name>_key"`. -/
def keyfield_set_name (c : ComponentClass) (table : List (String × String))
    (fname : String) : Except PyErr (String × List (String × String)) :=
  match legacy_slot_name c with
  | .error e => .error e
  | .ok slot_name =>
      let key := slot_name ++ "::" ++ fname ++ "_key"
      .ok (key, add_field table fname key)

/-! ### HostField get/set (dbfield.py, class HostField)

Modelled from the spec: the keyed attribute store the parent
`AttributeProperty` reads and writes is `get(key, default)` /
`set(key, value)` over an association list; `HostField.__init__` does
not forward `default` to the parent, so the parent default is `None`. -/

structure HostFieldD where
  key : String
  overridable : Bool
  fallback_default : PyVal
  host_attribute : String
  deriving DecidableEq

/-- The fallthrough read `getattr(instance.host, self.host_attribute,
self._fallback_default)`: host attributes are an association list; an
attribute stored as `None` is returned as such, the fallback applies
only when the attribute is missing. -/
def hostfield_host_value (hostAttrs : List (String × PyVal)) (f : HostFieldD) : PyVal :=
  (dictLookup hostAttrs f.host_attribute).getD f.fallback_default

/-- HostField.__get__: when overridable, return the component-local
persisted override unless it is `None`; otherwise (and always when not
overridable) fall through to the host attribute or the fixed fallback. -/
def hostfield_get (store hostAttrs : List (String × PyVal)) (f : HostFieldD) : PyVal :=
  if f.overridable then
    let override := (dictLookup store f.key).getD PyVal.vnone
    if override ≠ PyVal.vnone then override else hostfield_host_value hostAttrs f
  else hostfield_host_value hostAttrs f

/-- HostField.__set__: `assert self.overridable` then the parent write. -/
def hostfield_set (store : List (String × PyVal)) (f : HostFieldD) (v : PyVal) :
    Except PyErr (List (String × PyVal)) :=
  if f.overridable then .ok (dictInsert store f.key v)
  else .error (.assertionError "Cannot set a non-overridable host field")

/-! ### KeyField get/set (dbfield.py, class KeyField) -/

/-- The normalisation both `KeyField.__init__` and `KeyField.__set__`
apply: strings and integers pass through; anything else is replaced by
`getattr(value, "key", None)`, and a falsy key raises `ValueError`. -/
def keyfield_normalize : PyVal → Except PyErr PyVal
  | .vstr s => .ok (.vstr s)
  | .vint n => .ok (.vint n)
  | .vnone => .error (.valueError "Only str, int, or instances with keys are supported")
  | .vobj k =>
      if truthy k then .ok k
      else .error (.valueError "Only str, int, or instances with keys are supported")

/-- KeyField.__set__: normalise, then store through the parent write at
the computed `_key`. -/
def keyfield_set (store : List (String × PyVal)) (fkey : String) (v : PyVal) :
    Except PyErr (List (String × PyVal)) :=
  match keyfield_normalize v with
  | .error e => .error e
  | .ok k => .ok (dictInsert store fkey k)

/-- Python `Mapping.get`: `None` when the mapping has no entry. -/
def listing_get (listing : List (PyVal × PyVal)) (raw : PyVal) : PyVal :=
  (dictLookup listing raw).getD PyVal.vnone

/-- KeyField.__get__: read the stored identifier through the parent
(stored value, else the descriptor default), then resolve it against
the supplied mapping. -/
def keyfield_get (store : List (String × PyVal)) (fkey : String) (dflt : PyVal)
    (listing : List (PyVal × PyVal)) : PyVal :=
  let raw := (dictLookup store fkey).getD dflt
  listing_get listing raw

/-! ### The handler state (holder.py, ComponentHandler)

`World` gathers the state that add/remove touch, for one host `hid`:
the persisted `component_keys` attribute (the `db_keys` property), the
`_loaded_components` cache mapping strings to component instances,
the host tag store, the host command-set registry (modelled from the
spec as a list with `add`/`remove`), and the binding `instance id to
bound host` of every live component instance (the instance `host`
slot).  Signal wiring (`add_object_listeners_and_responders` and its
inverse) mutates none of these stores and is elided.  Instances are
identified by numbers; the class of the instance at hand is passed in
as `c`.  Operations return the final state together with an optional
propagating exception, so mutations made before a raise stay visible. -/

structure World where
  db_keys : List String
  loaded : List (String × Nat)
  tags : List (String × String)
  cmdsets : List String
  insts : List (Nat × Option Nat)
  deriving DecidableEq

/-- Modelled from the spec: host command-set registry `add`. -/
def cmdset_add (sets : List String) (cs : String) : List String :=
  sets ++ [cs]

/-- Modelled from the spec: host command-set registry `remove`. -/
def cmdset_remove (sets : List String) (cs : String) : List String :=
  removeFirst sets cs

/-- The tail of Component.at_added after the double-registration guard:
`if self.cmd_set: self.host.cmdset.add(self.cmd_set)` (note: the
command set goes through `self.host`, still the old binding, which is
`None` for an instance constructed without a host) and `self.host =
host`. -/
def at_added_rest (c : ComponentClass) (iid host : Nat) (self_host : Option Nat)
    (w : World) : World × Option PyErr :=
  match c.cmd_set with
  | some cs =>
      match self_host with
      | none => (w, some (.attributeError "NoneType object has no attribute cmdset"))
      | some _ =>
          ({ w with cmdsets := cmdset_add w.cmdsets cs,
                    insts := dictInsert w.insts iid (some host) }, none)
  | none => ({ w with insts := dictInsert w.insts iid (some host) }, none)

/-- Component.at_added: raise `ComponentRegisterError` when the instance
is already bound to a different (truthy) host, else register the
command set and bind the host. -/
def at_added (c : ComponentClass) (iid host : Nat) (w : World) : World × Option PyErr :=
  match (dictLookup w.insts iid).getD none with
  | some h =>
      if h ≠ host then
        (w, some (.componentRegisterError "Components must not register twice!"))
      else at_added_rest c iid host (some h) w
  | none => at_added_rest c iid host none w

/-- Component.at_removed: raise `ValueError` when called with a host
that is not the bound one, else remove the command set and unbind. -/
def at_removed (c : ComponentClass) (iid host : Nat) (w : World) : World × Option PyErr :=
  let self_host := (dictLookup w.insts iid).getD none
  if some host ≠ self_host then
    (w, some (.valueError "Component attempted to remove from the wrong host."))
  else
    let w :=
      match c.cmd_set with
      | some cs => { w with cmdsets := cmdset_remove w.cmdsets cs }
      | none => w
    ({ w with insts := dictInsert w.insts iid none }, none)

/-- ComponentHandler._set_component: cache the instance under its slot
and under its key (signal wiring elided). -/
def set_component (c : ComponentClass) (iid : Nat) (w : World) : World :=
  { w with loaded := dictInsert (dictInsert w.loaded c.get_component_slot iid)
                       c.get_component_key iid }

/-- The loop body of ComponentHandler._add_component_tags over
`tag_field_names`: apply each truthy `_default` through
TagField.__set__. -/
def apply_tag_defaults (fields : List (String × TagFieldD))
    (tgs : List (String × String)) : List (String × String) :=
  match fields with
  | [] => tgs
  | nf :: rest =>
      apply_tag_defaults rest
        (if optStrTruthy nf.2.default then tagfield_set tgs nf.2 (nf.2.default.getD "")
         else tgs)

/-- ComponentHandler._add_component_tags: tag the host with the slot key
under category `"components"`, then apply the tag-field defaults. -/
def add_component_tags (c : ComponentClass) (w : World) : World :=
  { w with tags := apply_tag_defaults c.tag_fields
                     (tags_add w.tags c.get_component_slot "components") }

/-- The loop body of ComponentHandler._remove_component_tags over
`tag_field_names`: `delattr` fires TagField.__delete__, clearing the
field category. -/
def delete_tag_fields (fields : List (String × TagFieldD))
    (tgs : List (String × String)) : List (String × String) :=
  match fields with
  | [] => tgs
  | nf :: rest => delete_tag_fields rest (tagfield_delete tgs nf.2)

/-- ComponentHandler._remove_component_tags: drop the component-key tag
from category `"components"`, then clear every tag-field category. -/
def remove_component_tags (c : ComponentClass) (w : World) : World :=
  { w with tags := delete_tag_fields c.tag_fields
                     (tags_remove w.tags c.get_component_key "components") }

/-- ComponentHandler.add: append `get_component_key()` to `db_keys`,
cache under slot and key, add the component tags, call `at_added`. -/
def ComponentHandler.add (c : ComponentClass) (iid hid : Nat) (w : World) :
    World × Option PyErr :=
  let w1 : World := { w with db_keys := w.db_keys ++ [c.get_component_key] }
  let w2 := set_component c iid w1
  let w3 := add_component_tags c w2
  at_added c iid hid w3

/-- ComponentHandler.get_by_key: plain cache lookup. -/
def ComponentHandler.get_by_key (w : World) (component_key : String) : Option Nat :=
  dictLookup w.loaded component_key

/-- ComponentHandler.get_by_slot: plain cache lookup. -/
def ComponentHandler.get_by_slot (w : World) (slot_key : String) : Option Nat :=
  dictLookup w.loaded slot_key

/-- ComponentHandler.has_slot: cache membership. -/
def ComponentHandler.has_slot (w : World) (slot_key : String) : Bool :=
  (dictLookup w.loaded slot_key).isSome

/-- ComponentHandler.remove: guard on `has_slot(get_component_slot())`,
call `at_removed`, drop the command set, strip the tags, remove the
slot key from `db_keys` (Python `list.remove`, a `ValueError` when the
element is absent), evict the slot cache entry. -/
def ComponentHandler.remove (c : ComponentClass) (iid hid : Nat) (hostName : String)
    (w : World) : World × Option PyErr :=
  let slot_key := c.get_component_slot
  match dictLookup w.loaded slot_key with
  | none =>
      (w, some (.componentIsNotRegistered
        ("Cannot remove " ++ slot_key ++ " from " ++ hostName ++
          " as it is not registered.")))
  | some _ =>
      match at_removed c iid hid w with
      | (w, some e) => (w, some e)
      | (w, none) =>
          let w :=
            match c.cmd_set with
            | some cs => { w with cmdsets := cmdset_remove w.cmdsets cs }
            | none => w
          let w := remove_component_tags c w
          if slot_key ∈ w.db_keys then
            ({ w with db_keys := removeFirst w.db_keys slot_key,
                      loaded := dictErase w.loaded slot_key }, none)
          else (w, some (.valueError "list.remove(x): x not in list"))

/-! ### ComponentHandler.initialize

The rehydration loop: resolve every persisted key through the listing
(`get_component_class` raises on an unknown key) and cache the loaded
instance via `_set_component`.  `Component.load(host)` returns a fresh
`cls(host)` instance, so the cache is modelled as string to class.
The `else` branch mirrors the unreachable source branch guarded by
`if component:`, which never fires because classes are truthy. -/

def handler_init_go (listing : List (Option String × ComponentClass))
    (hostName : String) (keys : List String)
    (loaded : List (String × ComponentClass)) :
    Except PyErr (List (String × ComponentClass)) :=
  match keys with
  | [] => .ok loaded
  | k :: rest =>
      match get_component_class listing k with
      | .error e => .error e
      | .ok comp =>
          if class_truthy comp then
            handler_init_go listing hostName rest
              (dictInsert (dictInsert loaded comp.get_component_slot comp)
                comp.get_component_key comp)
          else
            .error (.componentDoesNotExist
              ("Could not initialize runtime component " ++ k ++ " of " ++ hostName))

/-- ComponentHandler.initialize, including the early return on an empty
persisted key list. -/
def handler_init (listing : List (Option String × ComponentClass))
    (hostName : String) (keys : List String)
    (loaded : List (String × ComponentClass)) :
    Except PyErr (List (String × ComponentClass)) :=
  if keys.isEmpty then .ok loaded
  else handler_init_go listing hostName keys loaded

/-! ### The mixin accessor (holder.py, ComponentHolderMixin.components) -/

inductive HandlerRef where
  | hnone : HandlerRef
  | handler : Nat → HandlerRef
  deriving DecidableEq

/-- ComponentHolderMixin.components:
`getattr(self, "_component_handler", None)` over the host object
attribute dictionary. -/
def components_property (objAttrs : List (String × HandlerRef)) : HandlerRef :=
  (dictLookup objAttrs "_component_handler").getD HandlerRef.hnone

/-- ComponentHolderMixin.cmp: `return self.components`. -/
def cmp_property (objAttrs : List (String × HandlerRef)) : HandlerRef :=
  components_property objAttrs

/-! ### Helper lemmas about the store primitives -/

theorem dictLookup_insert_self {α β : Type} [DecidableEq α]
    (d : List (α × β)) (k : α) (v : β) :
    dictLookup (dictInsert d k v) k = some v := by
  induction d with
  | nil => simp [dictInsert, dictLookup]
  | cons hd tl ih =>
      obtain ⟨k0, v0⟩ := hd
      by_cases h : k0 = k <;> simp [dictInsert, dictLookup, h, ih]

theorem dictLookup_insert_ne {α β : Type} [DecidableEq α]
    (d : List (α × β)) (k k' : α) (v : β) (h : k' ≠ k) :
    dictLookup (dictInsert d k v) k' = dictLookup d k' := by
  have h' : k ≠ k' := Ne.symm h
  induction d with
  | nil => simp [dictInsert, dictLookup, h']
  | cons hd tl ih =>
      obtain ⟨k0, v0⟩ := hd
      by_cases h0 : k0 = k
      · subst h0
        simp [dictInsert, dictLookup, h']
      · simp [dictInsert, dictLookup, h0, ih]

theorem removeFirst_cons_self {α : Type} [DecidableEq α] (l : List α) (a : α) :
    removeFirst (a :: l) a = l := by
  simp [removeFirst]

theorem removeFirst_append_of_not_mem {α : Type} [DecidableEq α]
    (l₁ l₂ : List α) (a : α) (h : a ∉ l₁) :
    removeFirst (l₁ ++ l₂) a = l₁ ++ removeFirst l₂ a := by
  induction l₁ with
  | nil => simp
  | cons x t ih =>
      have hx : x ≠ a := fun he => h (by simp [he])
      have ht : a ∉ t := fun hm => h (by simp [hm])
      simp [removeFirst, hx, ih ht]

theorem removeFirst_append_self {α : Type} [DecidableEq α]
    (l : List α) (a : α) (h : a ∉ l) :
    removeFirst (l ++ [a]) a = l := by
  rw [removeFirst_append_of_not_mem l [a] a h, removeFirst_cons_self]
  simp

theorem filter_removeFirst {α : Type} [DecidableEq α]
    (p : α → Bool) (l : List α) (a : α) (hp : p a = true) :
    (removeFirst l a).filter p = removeFirst (l.filter p) a := by
  induction l with
  | nil => rfl
  | cons x t ih =>
      by_cases hx : x = a
      · subst hx
        simp [removeFirst, List.filter_cons, hp, removeFirst_cons_self]
      · by_cases hpx : p x = true
        · simp [removeFirst, hx, List.filter_cons, hpx, ih]
        · simp only [Bool.not_eq_true] at hpx
          simp [removeFirst, hx, List.filter_cons, hpx, ih]

theorem mem_tags_add_self (tgs : List (String × String)) (k c : String) :
    (k, c) ∈ tags_add tgs k c := by
  by_cases h : (k, c) ∈ tgs <;> simp [tags_add, h]

theorem mem_tags_add_of_mem (tgs : List (String × String)) (x : String × String)
    (k c : String) (h : x ∈ tgs) : x ∈ tags_add tgs k c := by
  by_cases hm : (k, c) ∈ tgs <;> simp [tags_add, hm, h]

theorem tags_add_of_not_mem (tgs : List (String × String)) (k c : String)
    (h : (k, c) ∉ tgs) : tags_add tgs k c = tgs ++ [(k, c)] := by
  simp [tags_add, h]

theorem not_mem_tags_clear (tgs : List (String × String)) (x cat : String) :
    (x, cat) ∉ tags_clear tgs cat := by
  simp [tags_clear, List.mem_filter]

theorem filter_cat_tags_clear (tgs : List (String × String)) (cat : String) :
    (tags_clear tgs cat).filter (fun t => t.2 == cat) = [] := by
  induction tgs with
  | nil => rfl
  | cons x t ih =>
      by_cases h : x.2 = cat
      · simpa [tags_clear, List.filter_cons, h] using ih
      · simpa [tags_clear, List.filter_cons, h] using ih

theorem filter_tags_clear_ne (tgs : List (String × String)) (cat cat0 : String)
    (h : cat ≠ cat0) :
    (tags_clear tgs cat).filter (fun t => t.2 == cat0) =
      tgs.filter (fun t => t.2 == cat0) := by
  induction tgs with
  | nil => rfl
  | cons x t ih =>
      by_cases h1 : x.2 = cat
      · have h2 : ¬ x.2 = cat0 := by rw [h1]; exact h
        simpa [tags_clear, List.filter_cons, h1, h2, h, Ne.symm h] using ih
      · by_cases h2 : x.2 = cat0 <;>
          simpa [tags_clear, List.filter_cons, h1, h2, h, Ne.symm h] using ih

theorem tags_clear_append (l1 l2 : List (String × String)) (cat : String) :
    tags_clear (l1 ++ l2) cat = tags_clear l1 cat ++ tags_clear l2 cat := by
  simp [tags_clear]

theorem tags_clear_idem (tgs : List (String × String)) (cat : String) :
    tags_clear (tags_clear tgs cat) cat = tags_clear tgs cat := by
  induction tgs with
  | nil => rfl
  | cons x t ih =>
      by_cases h : x.2 = cat
      · simpa [tags_clear, List.filter_cons, h] using ih
      · simpa [tags_clear, List.filter_cons, h] using ih

theorem filter_tags_add_ne (tgs : List (String × String)) (k cat cat0 : String)
    (h : cat ≠ cat0) :
    (tags_add tgs k cat).filter (fun t => t.2 == cat0) =
      tgs.filter (fun t => t.2 == cat0) := by
  by_cases hm : (k, cat) ∈ tgs
  · simp [tags_add, hm]
  · simp [tags_add, hm, List.filter_append, h]

theorem filter_tagfield_set_ne (tgs : List (String × String)) (f : TagFieldD)
    (v cat0 : String) (h : f.category_key ≠ cat0) :
    (tagfield_set tgs f v).filter (fun t => t.2 == cat0) =
      tgs.filter (fun t => t.2 == cat0) := by
  simp only [tagfield_set]
  cases he : f.enforce_single
  · rw [if_neg (by simp)]
    rw [filter_tags_add_ne _ _ _ _ h]
  · rw [if_pos rfl]
    rw [filter_tags_add_ne _ _ _ _ h, filter_tags_clear_ne _ _ _ h]

theorem filter_apply_tag_defaults (fields : List (String × TagFieldD))
    (tgs : List (String × String)) (cat0 : String)
    (h : ∀ nf ∈ fields, nf.2.category_key ≠ cat0) :
    (apply_tag_defaults fields tgs).filter (fun t => t.2 == cat0) =
      tgs.filter (fun t => t.2 == cat0) := by
  induction fields generalizing tgs with
  | nil => rfl
  | cons nf rest ih =>
      have hnf : nf.2.category_key ≠ cat0 := h nf (by simp)
      have hrest : ∀ x ∈ rest, x.2.category_key ≠ cat0 :=
        fun x hx => h x (by simp [hx])
      by_cases hd : optStrTruthy nf.2.default
      · simp only [apply_tag_defaults, hd, if_true]
        rw [ih _ hrest, filter_tagfield_set_ne _ _ _ _ hnf]
      · simp only [apply_tag_defaults, hd, if_false]
        exact ih _ hrest

theorem filter_delete_tag_fields (fields : List (String × TagFieldD))
    (tgs : List (String × String)) (cat0 : String)
    (h : ∀ nf ∈ fields, nf.2.category_key ≠ cat0) :
    (delete_tag_fields fields tgs).filter (fun t => t.2 == cat0) =
      tgs.filter (fun t => t.2 == cat0) := by
  induction fields generalizing tgs with
  | nil => rfl
  | cons nf rest ih =>
      have hnf : nf.2.category_key ≠ cat0 := h nf (by simp)
      have hrest : ∀ x ∈ rest, x.2.category_key ≠ cat0 :=
        fun x hx => h x (by simp [hx])
      simp only [delete_tag_fields]
      rw [ih _ hrest]
      exact filter_tags_clear_ne _ _ _ hnf

/-! ### Evaluation lemmas for the handler operations -/

theorem handler_add_eq (c : ComponentClass) (iid hid : Nat) (w : World)
    (hbound : dictLookup w.insts iid = some (some hid)) :
    ComponentHandler.add c iid hid w =
      ({ db_keys := w.db_keys ++ [c.get_component_key],
         loaded := dictInsert (dictInsert w.loaded c.get_component_slot iid)
                     c.get_component_key iid,
         tags := apply_tag_defaults c.tag_fields
                   (tags_add w.tags c.get_component_slot "components"),
         cmdsets := match c.cmd_set with
                    | some cs => cmdset_add w.cmdsets cs
                    | none => w.cmdsets,
         insts := dictInsert w.insts iid (some hid) }, none) := by
  cases hcs : c.cmd_set <;>
    simp [ComponentHandler.add, set_component, add_component_tags,
      at_added, at_added_rest, hbound, hcs]

theorem handler_remove_eq (c : ComponentClass) (iid hid : Nat) (hostName : String)
    (w : World)
    (hl : dictLookup w.loaded c.get_component_slot = some iid)
    (hb : dictLookup w.insts iid = some (some hid))
    (hdb : c.get_component_slot ∈ w.db_keys) :
    ComponentHandler.remove c iid hid hostName w =
      ({ db_keys := removeFirst w.db_keys c.get_component_slot,
         loaded := dictErase w.loaded c.get_component_slot,
         tags := delete_tag_fields c.tag_fields
                   (tags_remove w.tags c.get_component_key "components"),
         cmdsets := match c.cmd_set with
                    | some cs => cmdset_remove (cmdset_remove w.cmdsets cs) cs
                    | none => w.cmdsets,
         insts := dictInsert w.insts iid none }, none) := by
  cases hcs : c.cmd_set <;>
    simp [ComponentHandler.remove, at_removed, remove_component_tags,
      hl, hb, hdb, hcs]

/-! ### Claim theorems -/

/-- Claim C2: on a host whose persisted slot-key list contains a key the
Registry cannot resolve, ComponentHandler.initialize raises
ComponentDoesNotExist — but the raised message, produced inside
get_component_class, contains only the missing key and not the host
name (the handler branch that would name the host is unreachable). -/
theorem handler_init_missing_key_message :
    handler_init [] "Bob" ["ghost"] [] =
      .error (.componentDoesNotExist
        "Component with key ghost has not been found. Make sure it has been imported before being used.") ∧
    charInfix "ghost".data
      "Component with key ghost has not been found. Make sure it has been imported before being used.".data = true ∧
    charInfix "Bob".data
      "Component with key ghost has not been found. Make sure it has been imported before being used.".data = false := by
  refine ⟨rfl, by decide, by decide⟩

/-- Claim C3 counterexample: a class declaring neither component_key nor
component_slot nor a legacy name (the base Component class itself is
such a class) is still published into the Registry, under the absent
key, with an empty component key and no legacy name — so the published
class has neither a non-empty key nor a legacy name. -/
theorem register_anonymous_class_published :
    register_component []
        { component_key := "", component_slot := "", name := none, slot := none } =
      .ok [(none,
        { component_key := "", component_slot := "", name := none, slot := none })] ∧
    ComponentClass.get_component_key
        { component_key := "", component_slot := "", name := none, slot := none } = "" ∧
    ({ component_key := "", component_slot := "", name := none, slot := none } :
        ComponentClass).name = none := by
  refine ⟨rfl, by decide, rfl⟩

/-- Claim C3 (amended): declaring exactly one of
component_key/component_slot raises a ValueError; declaring neither
falls back to the legacy name, which is published as the Registry key
without any truthiness check, so it may be absent or empty; declaring
both publishes under the component key. -/
theorem register_component_cases (L : List (Option String × ComponentClass))
    (c : ComponentClass) :
    (c.component_key = "" → c.component_slot = "" →
        register_component L c = .ok (dictInsert L c.name c)) ∧
    (c.component_key = "" → c.component_slot ≠ "" →
        register_component L c = .error "A component_key is required") ∧
    (c.component_key ≠ "" → c.component_slot = "" →
        register_component L c = .error "A component_slot is required") ∧
    (c.component_key ≠ "" → c.component_slot ≠ "" →
        register_component L c = .ok (dictInsert L (some c.component_key) c)) := by
  refine ⟨?_, ?_, ?_, ?_⟩ <;> intro h1 h2 <;> simp [register_component, h1, h2]

theorem register_component_cases_witness :
    register_component []
        { component_key := "health", component_slot := "", name := none, slot := none } =
      .error "A component_slot is required" :=
  (register_component_cases []
    { component_key := "health", component_slot := "", name := none, slot := none }).2.2.1
    (by decide) rfl

/-- Claim C4: Component.at_added on an instance already bound to host A,
passed a different host B, raises ComponentRegisterError and leaves the
whole state — the binding to A included — unchanged. -/
theorem at_added_wrong_host_raises (c : ComponentClass) (w : World) (iid A B : Nat)
    (hbound : dictLookup w.insts iid = some (some A)) (hne : A ≠ B) :
    at_added c iid B w =
      (w, some (.componentRegisterError "Components must not register twice!")) := by
  simp [at_added, hbound, hne]

theorem at_added_wrong_host_raises_witness :
    at_added { component_key := "combat", component_slot := "combat",
               name := none, slot := none } 5 2
        { db_keys := ["combat"], loaded := [("combat", 5)], tags := [],
          cmdsets := [], insts := [(5, some 1)] } =
      ({ db_keys := ["combat"], loaded := [("combat", 5)], tags := [],
         cmdsets := [], insts := [(5, some 1)] },
       some (.componentRegisterError "Components must not register twice!")) :=
  at_added_wrong_host_raises _ _ 5 1 2 (by decide) (by decide)

/-- Claim C6 counterexample: assigning an object that exposes a `key`
attribute whose value is falsy (here the empty string) raises a
ValueError instead of storing the identifier. -/
theorem keyfield_falsy_key_object_raises :
    keyfield_set [] "inventory::item_key" (PyVal.vobj (PyVal.vstr "")) =
      .error (.valueError "Only str, int, or instances with keys are supported") := rfl

/-- Claim C6 (amended): assigning a string or integer stores that
identifier directly; assigning any other value stores the value of its
`key` attribute when that value is truthy; a subsequent read resolves
the stored identifier through the supplied mapping (absent, i.e.
`None`, when unmapped) rather than returning the raw identifier; any
other value — no `key` attribute, or a falsy one — raises a
ValueError. -/
theorem keyfield_assign_read (store : List (String × PyVal)) (fkey : String)
    (dflt : PyVal) (listing : List (PyVal × PyVal)) (v : PyVal) :
    ((∃ s, v = PyVal.vstr s) ∨ (∃ n, v = PyVal.vint n) →
        keyfield_set store fkey v = .ok (dictInsert store fkey v) ∧
        keyfield_get (dictInsert store fkey v) fkey dflt listing =
          listing_get listing v) ∧
    (∀ k, v = PyVal.vobj k → truthy k = true →
        keyfield_set store fkey v = .ok (dictInsert store fkey k) ∧
        keyfield_get (dictInsert store fkey k) fkey dflt listing =
          listing_get listing k) ∧
    (∀ k, v = PyVal.vobj k → truthy k = false →
        keyfield_set store fkey v =
          .error (.valueError "Only str, int, or instances with keys are supported")) ∧
    (v = PyVal.vnone →
        keyfield_set store fkey v =
          .error (.valueError "Only str, int, or instances with keys are supported")) := by
  refine ⟨?_, ?_, ?_, ?_⟩
  · rintro (⟨s, rfl⟩ | ⟨n, rfl⟩) <;>
      exact ⟨by simp [keyfield_set, keyfield_normalize],
        by simp [keyfield_get, dictLookup_insert_self]⟩
  · rintro k rfl htr
    exact ⟨by simp [keyfield_set, keyfield_normalize, htr],
      by simp [keyfield_get, dictLookup_insert_self]⟩
  · rintro k rfl htr
    simp [keyfield_set, keyfield_normalize, htr]
  · rintro rfl
    simp [keyfield_set, keyfield_normalize]

theorem keyfield_assign_read_witness :
    keyfield_set [] "inventory::item_key" (PyVal.vobj (PyVal.vstr "sword1")) =
      .ok [("inventory::item_key", PyVal.vstr "sword1")] ∧
    keyfield_get [("inventory::item_key", PyVal.vstr "sword1")] "inventory::item_key"
        PyVal.vnone [(PyVal.vstr "sword1", PyVal.vobj (PyVal.vstr "sword1"))] =
      PyVal.vobj (PyVal.vstr "sword1") := by
  have h := (keyfield_assign_read [] "inventory::item_key" PyVal.vnone
      [(PyVal.vstr "sword1", PyVal.vobj (PyVal.vstr "sword1"))]
      (PyVal.vobj (PyVal.vstr "sword1"))).2.1 (PyVal.vstr "sword1") rfl (by decide)
  exact ⟨h.1, h.2.trans (by decide)⟩

/-- Claim C7: a HostField with overridable = False rejects every write
with an assertion error, and every read returns the host named
attribute when present (regardless of any stored override) and the
fixed fallback default when the host lacks the attribute. -/
theorem hostfield_non_overridable_spec (f : HostFieldD)
    (store hostAttrs : List (String × PyVal)) (v : PyVal)
    (h : f.overridable = false) :
    hostfield_set store f v =
      .error (.assertionError "Cannot set a non-overridable host field") ∧
    (∀ x, dictLookup hostAttrs f.host_attribute = some x →
        hostfield_get store hostAttrs f = x) ∧
    (dictLookup hostAttrs f.host_attribute = none →
        hostfield_get store hostAttrs f = f.fallback_default) := by
  refine ⟨by simp [hostfield_set, h], ?_, ?_⟩
  · intro x hx
    simp [hostfield_get, hostfield_host_value, h, hx]
  · intro hx
    simp [hostfield_get, hostfield_host_value, h, hx]

theorem hostfield_non_overridable_spec_witness :
    hostfield_set [("health::max_hp", PyVal.vint 7)]
        { key := "health::max_hp", overridable := false,
          fallback_default := PyVal.vint 0, host_attribute := "max_hp" }
        (PyVal.vint 50) =
      .error (.assertionError "Cannot set a non-overridable host field") ∧
    hostfield_get [("health::max_hp", PyVal.vint 7)] [("max_hp", PyVal.vint 20)]
        { key := "health::max_hp", overridable := false,
          fallback_default := PyVal.vint 0, host_attribute := "max_hp" } =
      PyVal.vint 20 := by
  have h := hostfield_non_overridable_spec
    { key := "health::max_hp", overridable := false,
      fallback_default := PyVal.vint 0, host_attribute := "max_hp" }
    [("health::max_hp", PyVal.vint 7)] [("max_hp", PyVal.vint 20)]
    (PyVal.vint 50) rfl
  exact ⟨h.1, h.2.1 (PyVal.vint 20) (by decide)⟩

/-- Claim C8: for DBField (and NDBField/TagField) the computed storage
key is indeed built from the declared component slot and the field
registers itself under its field name; but HostField and KeyField read
`owner.slot`, an attribute the component base class never defines, so
on a class declaring only component_key/component_slot they raise
AttributeError at class-definition time instead of computing
`"health::armor"` (resp. `"health::armor_key"`). -/
theorem hostfield_keyfield_slot_attribute_error :
    dbfield_set_name
        { component_key := "health", component_slot := "health",
          name := none, slot := none } [] "armor" =
      ("health::armor", [("armor", "health::armor")]) ∧
    tagfield_set_name
        { component_key := "health", component_slot := "health",
          name := none, slot := none } [] "armor" =
      ("health::armor", [("armor", "health::armor")]) ∧
    hostfield_set_name
        { component_key := "health", component_slot := "health",
          name := none, slot := none } [] "armor" none =
      .error (.attributeError "type object has no attribute slot") ∧
    keyfield_set_name
        { component_key := "health", component_slot := "health",
          name := none, slot := none } [] "armor" =
      .error (.attributeError "type object has no attribute slot") := by
  refine ⟨by decide, by decide, rfl, rfl⟩

/-- Claim C10: reading the components (or cmp) accessor before at_init
or basetype_setup has installed a handler returns None (modelled as
`HandlerRef.hnone` from the total `getattr(..., None)` translation)
rather than raising. -/
theorem components_accessor_absent_handler (objAttrs : List (String × HandlerRef))
    (h : dictLookup objAttrs "_component_handler" = none) :
    components_property objAttrs = HandlerRef.hnone ∧
    cmp_property objAttrs = HandlerRef.hnone := by
  simp [components_property, cmp_property, h]

theorem components_accessor_absent_handler_witness :
    components_property [] = HandlerRef.hnone ∧
    cmp_property [] = HandlerRef.hnone :=
  components_accessor_absent_handler [] rfl

/-- Claim C5: on a TagField with enforce_single, setting value A and
then value B leaves exactly one tag — B — in the field computed
category; without enforce_single, both A and B are present in that
category afterwards. -/
theorem tagfield_enforce_single_spec (f : TagFieldD) (tgs : List (String × String))
    (A B : String) :
    (f.enforce_single = true →
        (tagfield_set (tagfield_set tgs f A) f B).filter
            (fun t => t.2 == f.category_key) =
          [(B, f.category_key)]) ∧
    (f.enforce_single = false →
        (A, f.category_key) ∈ tagfield_set (tagfield_set tgs f A) f B ∧
        (B, f.category_key) ∈ tagfield_set (tagfield_set tgs f A) f B) := by
  constructor
  · intro he
    have hset : ∀ (X : List (String × String)) (v : String),
        tagfield_set X f v =
          tags_clear X f.category_key ++ [(v, f.category_key)] := by
      intro X v
      simp only [tagfield_set, he, if_pos]
      exact tags_add_of_not_mem _ _ _ (not_mem_tags_clear X v f.category_key)
    have h0 : tags_clear [(A, f.category_key)] f.category_key = [] := by
      simp [tags_clear]
    rw [hset, hset, tags_clear_append, tags_clear_idem, h0, List.append_nil,
      List.filter_append, filter_cat_tags_clear]
    simp
  · intro he
    simp only [tagfield_set, he, Bool.false_eq_true, if_false]
    exact ⟨mem_tags_add_of_mem _ _ _ _ (mem_tags_add_self tgs A f.category_key),
      mem_tags_add_self _ B f.category_key⟩

/-- Claim C1 evaluation: for a component whose key and slot differ,
`add` caches the instance under both key and slot (that half of the
round trip holds), but the subsequent `remove` raises a ValueError —
`add` appended the key to db_keys while `remove` tries to delete the
slot — and leaves both cache entries, `has_slot`, and the persisted
key list untouched, contradicting the claimed round trip. -/
theorem add_remove_key_ne_slot_raises :
    (ComponentHandler.add
        ⟨"combat_key", "combat_body", none, none, none, []⟩ 0 1
        ⟨[], [], [], [], [(0, some 1)]⟩).2 = none ∧
    ComponentHandler.get_by_key
      (ComponentHandler.add ⟨"combat_key", "combat_body", none, none, none, []⟩ 0 1
        ⟨[], [], [], [], [(0, some 1)]⟩).1 "combat_key" = some 0 ∧
    ComponentHandler.get_by_slot
      (ComponentHandler.add ⟨"combat_key", "combat_body", none, none, none, []⟩ 0 1
        ⟨[], [], [], [], [(0, some 1)]⟩).1 "combat_body" = some 0 ∧
    (ComponentHandler.remove ⟨"combat_key", "combat_body", none, none, none, []⟩ 0 1 "Bob"
        (ComponentHandler.add ⟨"combat_key", "combat_body", none, none, none, []⟩ 0 1
          ⟨[], [], [], [], [(0, some 1)]⟩).1).2 =
      some (.valueError "list.remove(x): x not in list") ∧
    ComponentHandler.get_by_key
      (ComponentHandler.remove ⟨"combat_key", "combat_body", none, none, none, []⟩ 0 1 "Bob"
        (ComponentHandler.add ⟨"combat_key", "combat_body", none, none, none, []⟩ 0 1
          ⟨[], [], [], [], [(0, some 1)]⟩).1).1 "combat_key" = some 0 ∧
    ComponentHandler.get_by_slot
      (ComponentHandler.remove ⟨"combat_key", "combat_body", none, none, none, []⟩ 0 1 "Bob"
        (ComponentHandler.add ⟨"combat_key", "combat_body", none, none, none, []⟩ 0 1
          ⟨[], [], [], [], [(0, some 1)]⟩).1).1 "combat_body" = some 0 ∧
    ComponentHandler.has_slot
      (ComponentHandler.remove ⟨"combat_key", "combat_body", none, none, none, []⟩ 0 1 "Bob"
        (ComponentHandler.add ⟨"combat_key", "combat_body", none, none, none, []⟩ 0 1
          ⟨[], [], [], [], [(0, some 1)]⟩).1).1 "combat_body" = true ∧
    (ComponentHandler.remove ⟨"combat_key", "combat_body", none, none, none, []⟩ 0 1 "Bob"
        (ComponentHandler.add ⟨"combat_key", "combat_body", none, none, none, []⟩ 0 1
          ⟨[], [], [], [], [(0, some 1)]⟩).1).1.db_keys = ["combat_key"] := by
  refine ⟨by decide, by decide, by decide, by decide, by decide, by decide,
    by decide, by decide⟩

/-- Claim C9: for a component whose key equals its slot (and which is
already bound to the adding host), `add` appends the key to the
persisted db_keys list and tags the host with the slot under category
`"components"`; a subsequent `remove` succeeds and restores both the
persisted list and the `"components"`-category tags to their prior
state.  The tag-field hypothesis holds for every field produced by
`__set_name__`, whose categories always contain `"::"`. -/
theorem add_remove_round_trip_key_eq_slot (c : ComponentClass) (w : World)
    (iid hid : Nat) (hostName : String)
    (hks : c.get_component_key = c.get_component_slot)
    (hbound : dictLookup w.insts iid = some (some hid))
    (hdb : c.get_component_key ∉ w.db_keys)
    (htag : (c.get_component_key, "components") ∉ w.tags)
    (htf : ∀ nf ∈ c.tag_fields, nf.2.category_key ≠ "components") :
    (ComponentHandler.add c iid hid w).2 = none ∧
    (ComponentHandler.add c iid hid w).1.db_keys =
      w.db_keys ++ [c.get_component_key] ∧
    (c.get_component_slot, "components") ∈ (ComponentHandler.add c iid hid w).1.tags ∧
    (ComponentHandler.remove c iid hid hostName
        (ComponentHandler.add c iid hid w).1).2 = none ∧
    (ComponentHandler.remove c iid hid hostName
        (ComponentHandler.add c iid hid w).1).1.db_keys = w.db_keys ∧
    (ComponentHandler.remove c iid hid hostName
          (ComponentHandler.add c iid hid w).1).1.tags.filter
        (fun t => t.2 == "components") =
      w.tags.filter (fun t => t.2 == "components") := by
  have hadd := handler_add_eq c iid hid w hbound
  rw [← hks] at hadd
  rw [← hks]
  have h1 : (ComponentHandler.add c iid hid w).2 = none := by rw [hadd]
  have h2 : (ComponentHandler.add c iid hid w).1.db_keys =
      w.db_keys ++ [c.get_component_key] := by rw [hadd]
  have hproj := filter_apply_tag_defaults c.tag_fields
      (tags_add w.tags c.get_component_key "components") "components" htf
  have hmemf : (c.get_component_key, "components") ∈
      (tags_add w.tags c.get_component_key "components").filter
        (fun t => t.2 == "components") :=
    List.mem_filter.mpr ⟨mem_tags_add_self _ _ _, by simp⟩
  rw [← hproj] at hmemf
  have h3 : (c.get_component_key, "components") ∈
      (ComponentHandler.add c iid hid w).1.tags := by
    rw [hadd]
    exact (List.mem_filter.mp hmemf).1
  have hl1 : dictLookup (ComponentHandler.add c iid hid w).1.loaded
      c.get_component_slot = some iid := by
    rw [← hks]
    simp only [hadd]
    exact dictLookup_insert_self _ _ _
  have hb1 : dictLookup (ComponentHandler.add c iid hid w).1.insts iid =
      some (some hid) := by
    simp only [hadd]
    exact dictLookup_insert_self _ _ _
  have hdb1 : c.get_component_slot ∈ (ComponentHandler.add c iid hid w).1.db_keys := by
    rw [← hks]
    simp only [hadd]
    simp
  have hrem := handler_remove_eq c iid hid hostName _ hl1 hb1 hdb1
  rw [← hks] at hrem
  simp only [hadd] at hrem
  have h4 : (ComponentHandler.remove c iid hid hostName
      (ComponentHandler.add c iid hid w).1).2 = none := by
    simp only [hadd, hrem]
  have h5 : (ComponentHandler.remove c iid hid hostName
      (ComponentHandler.add c iid hid w).1).1.db_keys = w.db_keys := by
    simp only [hadd, hrem]
    exact removeFirst_append_self _ _ hdb
  have h6 : (ComponentHandler.remove c iid hid hostName
        (ComponentHandler.add c iid hid w).1).1.tags.filter
      (fun t => t.2 == "components") =
      w.tags.filter (fun t => t.2 == "components") := by
    simp only [hadd, hrem]
    rw [filter_delete_tag_fields _ _ _ htf]
    simp only [tags_remove]
    rw [filter_removeFirst _ _ _ (by simp)]
    rw [filter_apply_tag_defaults _ _ _ htf]
    rw [tags_add_of_not_mem _ _ _ htag, List.filter_append]
    have hsing : ([(c.get_component_key, "components")]).filter
        (fun t => t.2 == "components") = [(c.get_component_key, "components")] := by
      simp
    rw [hsing]
    exact removeFirst_append_self _ _
      (fun hmem => htag (List.mem_filter.mp hmem).1)
  exact ⟨h1, h2, h3, h4, h5, h6⟩

theorem add_remove_round_trip_key_eq_slot_witness :
    (ComponentHandler.add ⟨"combat", "combat", none, none, none, []⟩ 0 1
        ⟨[], [], [], [], [(0, some 1)]⟩).2 = none ∧
    (ComponentHandler.add ⟨"combat", "combat", none, none, none, []⟩ 0 1
        ⟨[], [], [], [], [(0, some 1)]⟩).1.db_keys = ["combat"] ∧
    ("combat", "components") ∈
      (ComponentHandler.add ⟨"combat", "combat", none, none, none, []⟩ 0 1
        ⟨[], [], [], [], [(0, some 1)]⟩).1.tags ∧
    (ComponentHandler.remove ⟨"combat", "combat", none, none, none, []⟩ 0 1 "Bob"
        (ComponentHandler.add ⟨"combat", "combat", none, none, none, []⟩ 0 1
          ⟨[], [], [], [], [(0, some 1)]⟩).1).2 = none ∧
    (ComponentHandler.remove ⟨"combat", "combat", none, none, none, []⟩ 0 1 "Bob"
        (ComponentHandler.add ⟨"combat", "combat", none, none, none, []⟩ 0 1
          ⟨[], [], [], [], [(0, some 1)]⟩).1).1.db_keys = [] ∧
    (ComponentHandler.remove ⟨"combat", "combat", none, none, none, []⟩ 0 1 "Bob"
          (ComponentHandler.add ⟨"combat", "combat", none, none, none, []⟩ 0 1
            ⟨[], [], [], [], [(0, some 1)]⟩).1).1.tags.filter
        (fun t => t.2 == "components") = [] := by
  have h := add_remove_round_trip_key_eq_slot
    ⟨"combat", "combat", none, none, none, []⟩ ⟨[], [], [], [], [(0, some 1)]⟩
    0 1 "Bob" (by decide) (by decide) (by decide) (by decide) (by simp)
  exact ⟨h.1, h.2.1, h.2.2.1, h.2.2.2.1, h.2.2.2.2.1, h.2.2.2.2.2⟩

theorem tagfield_enforce_single_spec_witness :
    (tagfield_set (tagfield_set []
          { category_key := "health::status", default := none, enforce_single := true }
          "red")
        { category_key := "health::status", default := none, enforce_single := true }
        "blue").filter (fun t => t.2 == "health::status") =
      [("blue", "health::status")] ∧
    ("red", "health::status") ∈
      tagfield_set (tagfield_set []
          { category_key := "health::status", default := none, enforce_single := false }
          "red")
        { category_key := "health::status", default := none, enforce_single := false }
        "blue" :=
  ⟨(tagfield_enforce_single_spec
      { category_key := "health::status", default := none, enforce_single := true }
      [] "red" "blue").1 rfl,
   ((tagfield_enforce_single_spec
      { category_key := "health::status", default := none, enforce_single := false }
      [] "red" "blue").2 rfl).1⟩

end Components
